import Mathlib

/-!
Verification of the entry-point classification pipeline of the
`aices_plus_one.tree_sitter_analyzer` module (class `TreeSitterAnalyzer`).

The Python module is shallowly embedded: syntax trees produced by the external
tree-sitter parsers are modelled by the inductive `TSNode` (a node type tag, a
byte span into the source, a start row, and a child list); the analyzer methods
become Lean functions over that model.  File systems are modelled by lists of
`FSEntry` records (the result of `Path.rglob`), and external library calls
(tree-sitter parsing, `json.loads`, `re.findall`) are supplied as oracle
parameters.
-/

namespace Aices

/-- Embeds `ProjectLanguage` enum from `aices_plus_one.models`. -/
inductive ProjectLanguage where
  | python | javascript | typescript | java | cpp | c | go | rust | csharp | unknown
deriving DecidableEq, Repr

/-- Embeds `ProjectType` enum from `aices_plus_one.models`. -/
inductive ProjectType where
  | webApp | api | cli | library | microservice | mobileApp | desktopApp | unknown
deriving DecidableEq, Repr

/-- Embeds `EntryPoint` model from `aices_plus_one.models` (the pydantic fields that the
analyzer populates; `return_type` is never set by the analyzer and is omitted). -/
structure EntryPoint where
  name : String
  filePath : String
  lineNumber : Nat
  type : String
  parameters : List String := []
  documentation : Option String := none
deriving DecidableEq, Repr

/-- Substring test on character lists: Python `needle in hay`. -/
def charsContain (needle : List Char) : List Char → Bool
  | [] => needle.isEmpty
  | c :: cs => needle.isPrefixOf (c :: cs) || charsContain needle cs

/-- Python substring containment `needle in hay` for strings. -/
def strContainsSub (hay needle : String) : Bool :=
  charsContain needle.toList hay.toList

/-- Python `s.startswith(pre)`. -/
def strStartsWith (s pre : String) : Bool :=
  pre.toList.isPrefixOf s.toList

/-- Python `s.endswith(suf)`. -/
def strEndsWith (s suf : String) : Bool :=
  suf.toList.isSuffixOf s.toList

/-- Python `s.lower()` (ASCII case folding, as used on names and extensions). -/
def strToLower (s : String) : String :=
  String.mk (s.toList.map Char.toLower)

/-- Python `s.strip()` (whitespace trimmed from both ends). -/
def strTrim (s : String) : String :=
  String.mk
    (((s.toList.dropWhile Char.isWhitespace).reverse.dropWhile Char.isWhitespace).reverse)

/-- Python `s.split(sep)` for a one-character separator. -/
def splitOnCharAux (sep : Char) (acc : List Char) : List Char → List (List Char)
  | [] => [acc.reverse]
  | c :: cs =>
      if c = sep then acc.reverse :: splitOnCharAux sep [] cs
      else splitOnCharAux sep (c :: acc) cs

/-- Python `s.split(sep)` for a one-character separator, on strings. -/
def strSplitOnChar (sep : Char) (s : String) : List String :=
  (splitOnCharAux sep [] s.toList).map String.mk

/-- Python `s.split(sep)[0]`: the text before the first occurrence of a
(non-empty) separator, or all of `s` when the separator does not occur. -/
def takeBeforeSub (sep : List Char) : List Char → List Char
  | [] => []
  | c :: cs => if sep.isPrefixOf (c :: cs) then [] else c :: takeBeforeSub sep cs

/-- String version of `takeBeforeSub`. -/
def strTakeBefore (s sep : String) : String :=
  String.mk (takeBeforeSub sep.toList s.toList)

/-- Python `sep.join(xs)`. -/
def strJoinSep (sep : String) : List String → String
  | [] => ""
  | [x] => x
  | x :: xs => x ++ sep ++ strJoinSep sep xs

/-- Python slice `src[a:b]` for byte offsets on ASCII source text. -/
def sliceText (src : String) (a b : Nat) : String :=
  String.mk ((src.toList.drop a).take (b - a))

mutual
/-- A tree-sitter syntax node: node type tag, start byte, end byte,
start row (`start_point[0]`), children (named and anonymous alike, in order). -/
inductive TSNode where
  | mk (ty : String) (startByte : Nat) (endByte : Nat) (startRow : Nat)
       (children : TSNodeList)

/-- The child list of a tree-sitter node. -/
inductive TSNodeList where
  | nil
  | cons (head : TSNode) (tail : TSNodeList)
end

/-- Node type tag (`node.type`). -/
def TSNode.ty : TSNode → String
  | .mk t _ _ _ _ => t

/-- Start byte offset (`node.start_byte`). -/
def TSNode.startByte : TSNode → Nat
  | .mk _ a _ _ _ => a

/-- End byte offset (`node.end_byte`). -/
def TSNode.endByte : TSNode → Nat
  | .mk _ _ b _ _ => b

/-- Start row (`node.start_point[0]`). -/
def TSNode.startRow : TSNode → Nat
  | .mk _ _ _ r _ => r

/-- Child list (`node.children`). -/
def TSNode.children : TSNode → TSNodeList
  | .mk _ _ _ _ cs => cs

/-- Embeds `source_code[node.start_byte:node.end_byte]`. -/
def TSNode.text (src : String) (n : TSNode) : String :=
  sliceText src n.startByte n.endByte

/-- Build a `TSNodeList` from a Lean list (concrete-tree notation helper). -/
def tlist : List TSNode → TSNodeList
  | [] => .nil
  | n :: ns => .cons n (tlist ns)

/-- Concrete-tree helper: an inner node. -/
def tsnode (ty : String) (a b row : Nat) (cs : List TSNode) : TSNode :=
  .mk ty a b row (tlist cs)

/-- Concrete-tree helper: a leaf node. -/
def tleaf (ty : String) (a b row : Nat) : TSNode :=
  .mk ty a b row .nil

/-! Generic tree traversal

Every `_extract_*_entry_points` method defines a local `traverse_node` that
emits candidates for the current node and then recurses into all children;
the Python extractor additionally consults `node.parent`, which we thread
through the recursion explicitly. -/

mutual
/-- Embeds `traverse_node(node)`: emit for `node` (with its parent available), then
recurse into `node.children` in order. -/
def traverseEmit (emit : Option TSNode → TSNode → List EntryPoint)
    (parent : Option TSNode) : TSNode → List EntryPoint
  | .mk t a b r cs =>
      emit parent (.mk t a b r cs)
        ++ traverseEmitList emit (some (.mk t a b r cs)) cs

/-- Traverse each node of a child list, all sharing the same parent. -/
def traverseEmitList (emit : Option TSNode → TSNode → List EntryPoint)
    (parent : Option TSNode) : TSNodeList → List EntryPoint
  | .nil => []
  | .cons c cs => traverseEmit emit parent c ++ traverseEmitList emit parent cs
end

/-! Python extractor (`_extract_python_entry_points`) -/

/-- The route-marker substrings checked by `has_api_decorator`. -/
def apiDecoratorMarkers : List String :=
  ["@app.route", "@router.", "@get", "@post", "@put", "@delete"]

/-- Scan a `decorated_definition` child list for a `decorator` whose source
text contains a route marker. -/
def decoratorListHasApi (src : String) : TSNodeList → Bool
  | .nil => false
  | .cons c cs =>
      (c.ty == "decorator"
        && apiDecoratorMarkers.any (fun m => strContainsSub (TSNode.text src c) m))
      || decoratorListHasApi src cs

/-- Embeds `has_api_decorator(node)`: the node is wrapped in a `decorated_definition`
parent one of whose `decorator` children contains a route marker. -/
def hasApiDecorator (src : String) (parent : Option TSNode) : Bool :=
  match parent with
  | some p => p.ty == "decorated_definition" && decoratorListHasApi src p.children
  | none => false

/-- Embeds `is_public_function(func_name)`: the name does not start with `_`. -/
def isPublicName (name : String) : Bool :=
  !(strStartsWith name "_")

/-- Direct children of a parameter-list node whose type is `identifier`,
sliced from the source in order. -/
def paramIdentifiers (src : String) : TSNodeList → List String
  | .nil => []
  | .cons c cs =>
      if c.ty == "identifier" then TSNode.text src c :: paramIdentifiers src cs
      else paramIdentifiers src cs

/-- The child-scanning loop of a function declaration: the declared name is the
last direct `identifier` child (later iterations overwrite `func_name`), and
parameter names accumulate from every child whose type is `paramListTy`
(`parameters` in Python, `formal_parameters` in JavaScript). -/
def funcInfoAux (paramListTy : String) (src : String)
    (acc : Option String × List String) : TSNodeList → Option String × List String
  | .nil => acc
  | .cons c cs =>
      let acc2 :=
        if c.ty == "identifier" then (some (TSNode.text src c), acc.2)
        else if c.ty == paramListTy then (acc.1, acc.2 ++ paramIdentifiers src c.children)
        else acc
      funcInfoAux paramListTy src acc2 cs

/-- Name and parameters of a Python `function_definition` node. -/
def pythonFuncInfo (src : String) (cs : TSNodeList) : Option String × List String :=
  funcInfoAux "parameters" src (none, []) cs

/-- The first direct `identifier` child (the class-name loop `break`s). -/
def firstIdentifier (src : String) : TSNodeList → Option String
  | .nil => none
  | .cons c cs =>
      if c.ty == "identifier" then some (TSNode.text src c) else firstIdentifier src cs

/-- The role-tag cascade for a Python function (`entry_type` assignment). -/
def pythonFuncType (src : String) (parent : Option TSNode) (funcName : String) : String :=
  if hasApiDecorator src parent then "api_endpoint"
  else if isPublicName funcName then "public_function"
  else "private_function"

/-- Candidate emission for one node of a Python tree (`function_definition` and
`class_definition` branches of `traverse_node`; Python truthiness `if func_name:`
drops both an unresolved and an empty name). -/
def emitPythonNode (src path : String) (parent : Option TSNode) (n : TSNode) :
    List EntryPoint :=
  if n.ty == "function_definition" then
    match pythonFuncInfo src n.children with
    | (some funcName, params) =>
        if funcName == "" then []
        else [{ name := funcName, filePath := path, lineNumber := n.startRow + 1,
                type := pythonFuncType src parent funcName, parameters := params }]
    | (none, _) => []
  else if n.ty == "class_definition" then
    match firstIdentifier src n.children with
    | some className =>
        if className == "" then []
        else [{ name := className, filePath := path, lineNumber := n.startRow + 1,
                type := if isPublicName className then "public_class" else "private_class" }]
    | none => []
  else []

/-- Embeds `_extract_python_entry_points(source_code, file_path)`.  The tree-sitter
parser is an oracle `Option (String → TSNode)`; `none` models
`ProjectLanguage.PYTHON not in self.parsers`, and `some parse` models
`parser.parse(source_code.encode()).root_node`.  Traversal starts at the root
node, whose parent is `None`. -/
def pythonEntryPoints (pyParser : Option (String → TSNode))
    (sourceCode filePath : String) : List EntryPoint :=
  match pyParser with
  | none => []
  | some parse =>
      traverseEmit (emitPythonNode sourceCode filePath) none (parse sourceCode)

/-! JavaScript/TypeScript extractor (`_extract_javascript_entry_points`) -/

/-- Candidate emission for one node of a JavaScript/TypeScript tree
(`function_declaration` and `class_declaration` branches; the parent is
unused). -/
def emitJsNode (src path : String) (_parent : Option TSNode) (n : TSNode) :
    List EntryPoint :=
  if n.ty == "function_declaration" then
    match funcInfoAux "formal_parameters" src (none, []) n.children with
    | (some funcName, params) =>
        if funcName == "" then []
        else [{ name := funcName, filePath := path, lineNumber := n.startRow + 1,
                type := "function", parameters := params }]
    | (none, _) => []
  else if n.ty == "class_declaration" then
    match firstIdentifier src n.children with
    | some className =>
        if className == "" then []
        else [{ name := className, filePath := path, lineNumber := n.startRow + 1,
                type := "class" }]
    | none => []
  else []

/-- Embeds `_extract_javascript_entry_points(source_code, file_path)`: the parser is
chosen by the file extension (`.ts`/`.tsx` → TypeScript parser), and a missing
parser yields no candidates. -/
def jsEntryPoints (jsParser tsParser : Option (String → TSNode))
    (sourceCode filePath : String) : List EntryPoint :=
  let chosen :=
    if strEndsWith filePath ".ts" || strEndsWith filePath ".tsx" then tsParser
    else jsParser
  match chosen with
  | none => []
  | some parse =>
      traverseEmit (emitJsNode sourceCode filePath) none (parse sourceCode)

/-! C# extractor (`_extract_csharp_entry_points`) -/

/-- Embeds `get_modifiers(node)`: direct `modifier` children, source text stripped. -/
def csModifiers (src : String) : TSNodeList → List String
  | .nil => []
  | .cons c cs =>
      if c.ty == "modifier" then strTrim (TSNode.text src c) :: csModifiers src cs
      else csModifiers src cs

/-- Embeds `get_attributes(node)`: direct `attribute_list` children, source text. -/
def csAttributes (src : String) : TSNodeList → List String
  | .nil => []
  | .cons c cs =>
      if c.ty == "attribute_list" then TSNode.text src c :: csAttributes src cs
      else csAttributes src cs

/-- Embeds `is_api_endpoint(attributes, modifiers)`: the space-joined attribute text
contains one of the Web-API attribute markers. -/
def csIsApiEndpoint (attributes : List String) : Bool :=
  ["[HttpGet]", "[HttpPost]", "[HttpPut]", "[HttpDelete]", "[Route"].any
    (fun apiAttr => strContainsSub (strJoinSep " " attributes) apiAttr)

/-- Identifiers nested inside `parameter` children of a `parameter_list`. -/
def csParamIdentifiers (src : String) : TSNodeList → List String
  | .nil => []
  | .cons c cs =>
      if c.ty == "parameter" then
        paramIdentifiers src c.children ++ csParamIdentifiers src cs
      else csParamIdentifiers src cs

/-- The child-scanning loop of a C# `method_declaration`: last direct
`identifier` child is the name; parameters come from `parameter` children of
each `parameter_list` child. -/
def csMethodInfoAux (src : String) (acc : Option String × List String) :
    TSNodeList → Option String × List String
  | .nil => acc
  | .cons c cs =>
      let acc2 :=
        if c.ty == "identifier" then (some (TSNode.text src c), acc.2)
        else if c.ty == "parameter_list" then
          (acc.1, acc.2 ++ csParamIdentifiers src c.children)
        else acc
      csMethodInfoAux src acc2 cs

/-- Candidate emission for one node of a C# tree (`method_declaration`,
`class_declaration` and `interface_declaration` branches; the parent is
unused). -/
def emitCsNode (src path : String) (_parent : Option TSNode) (n : TSNode) :
    List EntryPoint :=
  if n.ty == "method_declaration" then
    let modifiers := csModifiers src n.children
    let attributes := csAttributes src n.children
    match csMethodInfoAux src (none, []) n.children with
    | (some methodName, params) =>
        if methodName == "" then []
        else
          [{ name := methodName, filePath := path, lineNumber := n.startRow + 1,
             type :=
               if csIsApiEndpoint attributes then "api_endpoint"
               else if modifiers.contains "public" then "public_method"
               else "private_method",
             parameters := params,
             documentation :=
               if attributes.isEmpty then none
               else some (strJoinSep ", " attributes) }]
    | (none, _) => []
  else if n.ty == "class_declaration" then
    let modifiers := csModifiers src n.children
    match firstIdentifier src n.children with
    | some className =>
        if className == "" then []
        else [{ name := className, filePath := path, lineNumber := n.startRow + 1,
                type := if modifiers.contains "public" then "public_class"
                        else "internal_class" }]
    | none => []
  else if n.ty == "interface_declaration" then
    let modifiers := csModifiers src n.children
    match firstIdentifier src n.children with
    | some interfaceName =>
        if interfaceName == "" then []
        else [{ name := interfaceName, filePath := path,
                lineNumber := n.startRow + 1,
                type := if modifiers.contains "public" then "public_interface"
                        else "internal_interface" }]
    | none => []
  else []

/-- Embeds `_extract_csharp_entry_points(source_code, file_path)`. -/
def csEntryPoints (csParser : Option (String → TSNode))
    (sourceCode filePath : String) : List EntryPoint :=
  match csParser with
  | none => []
  | some parse =>
      traverseEmit (emitCsNode sourceCode filePath) none (parse sourceCode)

/-- Embeds `_filter_entry_points_by_project_type`: project-type-driven narrowing of the
extracted candidate list (each Python branch is a list comprehension or an
append loop over `entry_points`, i.e. a filter). -/
def filterEntryPointsByProjectType (entryPoints : List EntryPoint)
    (projectType : ProjectType) : List EntryPoint :=
  match projectType with
  | .api =>
      entryPoints.filter (fun ep => ep.type == "api_endpoint")
  | .library =>
      entryPoints.filter (fun ep =>
        ["public_class", "public_interface", "public_method", "public_function"].contains ep.type)
  | .cli =>
      entryPoints.filter (fun ep =>
        ["main", "run", "execute", "cli", "command"].contains (strToLower ep.name)
        || (["public_method", "public_function"].contains ep.type
            && ["command", "cmd", "execute", "run", "parse", "handle"].any
                 (fun keyword => strContainsSub (strToLower ep.name) keyword)))
  | .webApp =>
      entryPoints.filter (fun ep =>
        ["api_endpoint", "public_method", "public_function", "route"].contains ep.type)
  | .microservice =>
      entryPoints.filter (fun ep =>
        ["api_endpoint", "public_interface", "service_method", "public_method"].contains ep.type)
  | _ =>
      entryPoints.filter (fun ep =>
        ["public_class", "public_interface", "public_method", "public_function",
         "api_endpoint"].contains ep.type)

/-! File-system model

The recursive listing `Path.rglob` over the project root is modelled as a list of entries, each
carrying its path segments relative to the project root, whether it is a
regular file, and its decoded text content (`none` models an entry whose
`read_text`/`open` raises — unreadable files and directories alike; every such
read in the analyzer is wrapped in a `try` whose handler skips the entry). -/

/-- One entry of the recursive directory listing. -/
structure FSEntry where
  parts : List String
  isFile : Bool
  content : Option String
deriving DecidableEq, Repr

/-- Embeds `path.name`: the final path segment. -/
def entryName (e : FSEntry) : String :=
  e.parts.getLastD ""

/-- Embeds `PurePath.suffix`: `name[i:]` for the last `.` at index `i` when
`0 < i < len(name) - 1`, else the empty string. -/
def pathSuffix (name : String) : String :=
  let cs := name.toList
  match (cs.enum.filter (fun p => p.2 = '.')).getLast? with
  | some (i, _) => if 0 < i ∧ i < cs.length - 1 then String.mk (cs.drop i) else ""
  | none => ""

/-- Embeds `_detect_language(file_path)`: extension-to-language lookup,
case-insensitive on the suffix, defaulting to `UNKNOWN`. -/
def detectLanguage (e : FSEntry) : ProjectLanguage :=
  match strToLower (pathSuffix (entryName e)) with
  | ".py" => .python
  | ".js" => .javascript
  | ".jsx" => .javascript
  | ".ts" => .typescript
  | ".tsx" => .typescript
  | ".java" => .java
  | ".cpp" => .cpp
  | ".cc" => .cpp
  | ".cxx" => .cpp
  | ".c" => .c
  | ".h" => .c
  | ".hpp" => .cpp
  | ".go" => .go
  | ".rs" => .rust
  | ".cs" => .csharp
  | _ => .unknown

/-- Embeds the hidden-path test: some path segment starts with a dot. -/
def isHidden (e : FSEntry) : Bool :=
  e.parts.any (fun p => strStartsWith p ".")

/-! Language tally (`analyze_project` / `_get_primary_language`) -/

/-- Increment the count of a language in an insertion-ordered association list
(a Python `dict` keyed by language). -/
def bumpCount (l : ProjectLanguage) : List (ProjectLanguage × Nat) →
    List (ProjectLanguage × Nat)
  | [] => [(l, 1)]
  | (k, n) :: rest =>
      if k = l then (k, n + 1) :: rest else (k, n) :: bumpCount l rest

/-- The per-language counters: every regular, non-hidden file with a
recognized language bumps its counter (first-seen insertion order). -/
def languageCounts (files : List FSEntry) : List (ProjectLanguage × Nat) :=
  files.foldl
    (fun acc e =>
      if e.isFile && !(isHidden e) then
        let lang := detectLanguage e
        if lang = .unknown then acc else bumpCount lang acc
      else acc)
    []

/-- Running argmax over the tally: a later key replaces the current best only
when its count is strictly greater. -/
def maxCountAux (bk : ProjectLanguage) (bn : Nat) :
    List (ProjectLanguage × Nat) → ProjectLanguage
  | [] => bk
  | (k, n) :: rest => if n > bn then maxCountAux k n rest else maxCountAux bk bn rest

/-- Python `max(counts, key=counts.get)`: the first key attaining the maximal
count (ties keep the earlier key; dict iteration is insertion-ordered). -/
def maxCountKey : List (ProjectLanguage × Nat) → Option ProjectLanguage
  | [] => none
  | (k, n) :: rest => some (maxCountAux k n rest)

/-- Embeds `_get_primary_language` / the primary-language step of `analyze_project`:
argmax of the tally, `UNKNOWN` when the tally is empty. -/
def primaryLanguage (files : List FSEntry) : ProjectLanguage :=
  match maxCountKey (languageCounts files) with
  | some l => l
  | none => .unknown

/-! Project-type detection (`_detect_project_type`)

The method re-lists the file tree with `rglob` and does NOT
filter hidden paths; `files` below is that unfiltered listing. -/

/-- Lower-cased names of every listed entry (`file_names` set; membership
tests only). -/
def hasFileName (files : List FSEntry) (n : String) : Bool :=
  files.any (fun e => strToLower (entryName e) == n)

/-- The four flags accumulated over `.cs` files. -/
structure CsScan where
  publicClasses : Bool
  interfaces : Bool
  apiControllers : Bool
  mainMethod : Bool
deriving DecidableEq, Repr

/-- Per-file update of the C# scan flags (unreadable entries are skipped by
the `except: continue`). -/
def csScanFile (st : CsScan) (e : FSEntry) : CsScan :=
  if pathSuffix (entryName e) == ".cs" then
    match e.content with
    | none => st
    | some content =>
        { apiControllers := st.apiControllers
            || ["[ApiController]", "[Route", "[HttpGet]", "[HttpPost]",
                "ControllerBase"].any (fun keyword => strContainsSub content keyword),
          publicClasses := st.publicClasses || strContainsSub content "public class",
          interfaces := st.interfaces || strContainsSub content "public interface"
            || strContainsSub content "interface I",
          mainMethod := st.mainMethod || strContainsSub content "static void Main"
            || strContainsSub content "static async Task Main" }
  else st

/-- The scan over all listed entries. -/
def csScan (files : List FSEntry) : CsScan :=
  files.foldl csScanFile ⟨false, false, false, false⟩

/-- The `.csproj` loop: the first project file whose content names an output
type (or a target framework) decides; files with neither clue are skipped. -/
def csprojScan : List FSEntry → Option ProjectType
  | [] => none
  | e :: rest =>
      if pathSuffix (entryName e) == ".csproj" then
        match e.content with
        | none => csprojScan rest
        | some content =>
            if strContainsSub content "<OutputType>Library</OutputType>"
               || strContainsSub content "netstandard" then some .library
            else if strContainsSub content "<OutputType>Exe</OutputType>"
               || strContainsSub content "netcoreapp" then some .cli
            else csprojScan rest
      else csprojScan rest

/-- The Flask/FastAPI/Django content scan over `.py` files. -/
def pyApiScan : List FSEntry → Bool
  | [] => false
  | e :: rest =>
      if pathSuffix (entryName e) == ".py" then
        match e.content with
        | none => pyApiScan rest
        | some content =>
            if ["@app.route", "FastAPI", "Django"].any
                 (fun keyword => strContainsSub content keyword) then true
            else pyApiScan rest
      else pyApiScan rest

/-- The generic (non-C#) rules of `_detect_project_type`, in cascade order. -/
def genericDetect (projectPathStr : String) (files : List FSEntry) : ProjectType :=
  if ["package.json", "index.html", "app.js", "server.js"].any (hasFileName files) then
    .webApp
  else if (["app.py", "main.py", "server.py", "api.py"].any (hasFileName files))
          && pyApiScan files then
    .api
  else if (["cli.py", "main.py", "cmd.py"].any (hasFileName files))
          || strContainsSub projectPathStr "bin/" then
    .cli
  else if ["setup.py", "pyproject.toml", "cargo.toml", "pom.xml"].any
            (hasFileName files) then
    .library
  else if ["dockerfile", "docker-compose.yml", "k8s.yml"].any (hasFileName files) then
    .microservice
  else
    .unknown

/-- Embeds `_detect_project_type(project_path, language)`.  For the C# case the four
content-scan rules run first, then the `.csproj` loop; when none of them
returns, control falls through to the generic rules. -/
def detectProjectType (projectPathStr : String) (language : ProjectLanguage)
    (files : List FSEntry) : ProjectType :=
  if language = .csharp then
    let s := csScan files
    if s.apiControllers then .api
    else if s.interfaces && s.publicClasses then .library
    else if s.mainMethod && !s.publicClasses then .cli
    else
      match csprojScan files with
      | some t => t
      | none => genericDetect projectPathStr files
  else genericDetect projectPathStr files

/-! Dependencies and project summary -/

/-- Embeds `_count_lines_of_code`: non-blank lines not starting (after strip) with
`#`; an unreadable file counts 0. -/
def countLinesOfCode (content : Option String) : Nat :=
  match content with
  | none => 0
  | some c =>
      ((strSplitOnChar '\n' c).filter
        (fun line => strTrim line ≠ "" && !(strStartsWith (strTrim line) "#"))).length

/-- Content of the top-level project file of a given name, when it exists and
is readable (`(project_path / name).exists()` followed by `read_text`, whose
failure is skipped). -/
def topLevelContent (files : List FSEntry) (name : String) : Option String :=
  match files.find? (fun e => e.parts = [name]) with
  | some e => if e.isFile then e.content else none
  | none => none

/-- The `requirements.txt` line parse: keep non-blank lines not starting with
`#` (the startswith test runs on the raw line), then strip version pins. -/
def requirementsDeps (content : String) : List String :=
  ((strSplitOnChar '\n' content).filter
      (fun line => strTrim line ≠ "" && !(strStartsWith line "#"))).map
    (fun line =>
      strTrim (strTakeBefore (strTakeBefore (strTakeBefore line "==") ">=") "<="))

/-- All dependency identifiers gathered before the cap.  `json.loads` on
`package.json` and `re.findall` on `pom.xml` are external-library calls,
supplied as oracles: `jsonDeps` is `(dependencies.keys, devDependencies.keys)`
(`none` models a parse failure, which contributes nothing), and
`pomArtifacts` is the list of `artifactId` matches. -/
def allDeclaredDeps (language : ProjectLanguage) (files : List FSEntry)
    (jsonDeps : Option (List String × List String)) (pomArtifacts : List String) :
    List String :=
  if language = .python then
    ["requirements.txt", "pyproject.toml", "setup.py", "Pipfile"].foldl
      (fun acc reqFile =>
        match topLevelContent files reqFile with
        | some content =>
            if reqFile == "requirements.txt" then acc ++ requirementsDeps content
            else acc
        | none => acc)
      []
  else if language = .javascript ∨ language = .typescript then
    match topLevelContent files "package.json" with
    | some _ =>
        match jsonDeps with
        | some (deps, devDeps) => deps ++ devDeps
        | none => []
    | none => []
  else if language = .java then
    match topLevelContent files "pom.xml" with
    | some _ => pomArtifacts
    | none => []
  else []

/-- Embeds `_extract_dependencies`: the gathered list, capped by `dependencies[:50]`. -/
def extractDependencies (language : ProjectLanguage) (files : List FSEntry)
    (jsonDeps : Option (List String × List String)) (pomArtifacts : List String) :
    List String :=
  (allDeclaredDeps language files jsonDeps pomArtifacts).take 50

/-- Embeds `total_files` of `analyze_project`: regular, non-hidden files with a
recognized language. -/
def totalFiles (files : List FSEntry) : Nat :=
  (files.filter
    (fun e => e.isFile && !(isHidden e) && !(detectLanguage e = .unknown))).length

/-- Embeds `total_loc` of `analyze_project`, summed over the same files. -/
def totalLoc (files : List FSEntry) : Nat :=
  ((files.filter
      (fun e => e.isFile && !(isHidden e) && !(detectLanguage e = .unknown))).map
    (fun e => countLinesOfCode e.content)).sum

/-- The fields of `ProjectInfo` that `analyze_project` computes from the file
tree (identity strings, description, version and the timestamp are out of
scope of the claims). -/
structure ProjectSummary where
  language : ProjectLanguage
  projectType : ProjectType
  dependencies : List String
  fileCount : Nat
  linesOfCode : Nat
deriving DecidableEq, Repr

/-- Embeds `analyze_project(project_path, repository_name)`: tally, primary language,
type detection, dependency extraction, counters. -/
def analyzeProject (projectPathStr : String) (files : List FSEntry)
    (jsonDeps : Option (List String × List String)) (pomArtifacts : List String) :
    ProjectSummary :=
  let lang := primaryLanguage files
  { language := lang,
    projectType := detectProjectType projectPathStr lang files,
    dependencies := extractDependencies lang files jsonDeps pomArtifacts,
    fileCount := totalFiles files,
    linesOfCode := totalLoc files }

/-! Project-level entry-point extraction (`extract_entry_points`) -/

/-- The tree-sitter parser oracles held by the analyzer instance
(`self.parsers`); a `none` entry models a grammar that failed to load. -/
structure Parsers where
  py : Option (String → TSNode)
  js : Option (String → TSNode)
  ts : Option (String → TSNode)
  cs : Option (String → TSNode)

/-- Embeds `str(file_path.relative_to(project_path))`. -/
def relPath (e : FSEntry) : String :=
  strJoinSep "/" e.parts

/-- The per-language dispatch inside the per-file `try` block.  The Java
branch calls `self._extract_java_entry_points`, a method that is not defined
anywhere on `TreeSitterAnalyzer`, so the call raises `AttributeError`;
languages with no branch (`C`, `C++`, `Go`, `Rust`) fall to `continue`. -/
def dispatchExtract (parsers : Parsers) (language : ProjectLanguage)
    (sourceCode relativePath : String) : Except String (List EntryPoint) :=
  match language with
  | .python => .ok (pythonEntryPoints parsers.py sourceCode relativePath)
  | .javascript => .ok (jsEntryPoints parsers.js parsers.ts sourceCode relativePath)
  | .typescript => .ok (jsEntryPoints parsers.js parsers.ts sourceCode relativePath)
  | .java => .error "AttributeError: TreeSitterAnalyzer has no attribute _extract_java_entry_points"
  | .csharp => .ok (csEntryPoints parsers.cs sourceCode relativePath)
  | _ => .ok []

/-- One iteration of the `extract_entry_points` file loop: hidden paths,
non-files and unrecognized languages are skipped; a read failure or an
exception from the dispatch is caught by the per-file handler, which logs and
continues, so the file contributes no candidates. -/
def fileContribution (parsers : Parsers) (e : FSEntry) : List EntryPoint :=
  if e.isFile && !(isHidden e) then
    if detectLanguage e = .unknown then []
    else
      match e.content with
      | none => []
      | some sourceCode =>
          match dispatchExtract parsers (detectLanguage e) sourceCode (relPath e) with
          | .ok entryPoints => entryPoints
          | .error _ => []
  else []

/-- The accumulation loop (`all_entry_points.extend(file_entry_points)`). -/
def collectEntryPoints (parsers : Parsers) (files : List FSEntry) :
    List EntryPoint :=
  files.foldl (fun acc e => acc ++ fileContribution parsers e) []

/-- Embeds `extract_entry_points(project_path)`: primary language, project type, the
per-file loop, then the project-type filter. -/
def extractEntryPointsAll (parsers : Parsers) (projectPathStr : String)
    (files : List FSEntry) : List EntryPoint :=
  filterEntryPointsByProjectType (collectEntryPoints parsers files)
    (detectProjectType projectPathStr (primaryLanguage files) files)

/-! Concrete scenario: `main.py` with `hello_world` and `Calculator`

Source text and the syntax tree that the tree-sitter Python grammar produces
for it (a defaulted parameter is a `default_parameter` node wrapping its
`identifier`; keyword and punctuation tokens appear as anonymous children). -/

/-- The scenario source file. -/
def c6src : String :=
  "def hello_world(name=\"World\"):\n    pass\n\nclass Calculator:\n    def add(self,a,b):\n        pass\n"

/-- The `function_definition` node of `add` (rows and byte offsets are those of
`c6src`). -/
def c6addNode : TSNode :=
  tsnode "function_definition" 63 94 4 [
    tleaf "def" 63 66 4,
    tleaf "identifier" 67 70 4,
    tsnode "parameters" 70 80 4 [
      tleaf "(" 70 71 4,
      tleaf "identifier" 71 75 4,
      tleaf "," 75 76 4,
      tleaf "identifier" 76 77 4,
      tleaf "," 77 78 4,
      tleaf "identifier" 78 79 4,
      tleaf ")" 79 80 4],
    tleaf ":" 80 81 4,
    tsnode "block" 90 94 5 [tleaf "pass_statement" 90 94 5]]

/-- The class body block of `Calculator`, enclosing `c6addNode`. -/
def c6classBlock : TSNode :=
  tsnode "block" 63 94 4 [c6addNode]

/-- The root `module` node of the tree-sitter parse of `c6src`. -/
def c6tree : TSNode :=
  tsnode "module" 0 95 0 [
    tsnode "function_definition" 0 39 0 [
      tleaf "def" 0 3 0,
      tleaf "identifier" 4 15 0,
      tsnode "parameters" 15 29 0 [
        tleaf "(" 15 16 0,
        tsnode "default_parameter" 16 28 0 [
          tleaf "identifier" 16 20 0,
          tleaf "=" 20 21 0,
          tsnode "string" 21 28 0 [
            tleaf "string_start" 21 22 0,
            tleaf "string_content" 22 27 0,
            tleaf "string_end" 27 28 0]],
        tleaf ")" 28 29 0],
      tleaf ":" 29 30 0,
      tsnode "block" 35 39 1 [tleaf "pass_statement" 35 39 1]],
    tsnode "class_definition" 41 94 3 [
      tleaf "class" 41 46 3,
      tleaf "identifier" 47 57 3,
      tleaf ":" 57 58 3,
      c6classBlock]]

/-- The tree-sitter parse oracle for the scenario file. -/
def c6parse : String → TSNode := fun _ => c6tree

/-! Claim-modelled reference definitions and concrete inputs -/

/-- Modelled from the claim wording of C1: the role tag of a Python function
depends on the enclosing-node type, yielding the `method` variants for a
declaration enclosed in a class (compare with `pythonFuncType`, which the code
actually uses). -/
def pythonRoleClaim (hasRouteDecorator enclosedInClass : Bool) (name : String) :
    String :=
  if hasRouteDecorator then "api_endpoint"
  else if isPublicName name then
    (if enclosedInClass then "public_method" else "public_function")
  else
    (if enclosedInClass then "private_method" else "private_function")

/-- Modelled from the claim wording of C4: rule (b) fires only on a literal
`public interface` declaration (compare with `csScanFile`, whose interface
flag also fires on the `interface I` naming convention). -/
def csPublicInterfaceDeclClaim (files : List FSEntry) : Bool :=
  files.any (fun e =>
    pathSuffix (entryName e) == ".cs"
    && (match e.content with
        | some content => strContainsSub content "public interface"
        | none => false))

/-- Modelled from the claim wording of C4: the C#-case cascade with the
rule (b) of the claim; all other rules follow the code. -/
def detectCSharpTypeClaim (projectPathStr : String) (files : List FSEntry) :
    ProjectType :=
  let s := csScan files
  if s.apiControllers then .api
  else if csPublicInterfaceDeclClaim files && s.publicClasses then .library
  else if s.mainMethod && !s.publicClasses then .cli
  else
    match csprojScan files with
    | some t => t
    | none => genericDetect projectPathStr files

/-- A C# file declaring an `I`-prefixed (non-public) interface and a public
class: the code classifies the project `library`, the claim cascade does not. -/
def c4libFile : FSEntry :=
  ⟨["Lib.cs"], true, some "interface IFoo\npublic class Bar\n"⟩

/-- A C# controller file with `[ApiController]`, a public class and no
interface (the scenario of C4). -/
def c4apiFile : FSEntry :=
  ⟨["Api.cs"], true, some "[ApiController]\npublic class MyController : ControllerBase\n"⟩

/-- A `package.json` inside a hidden directory: excluded from the language
tally but visible to `_detect_project_type`. -/
def hiddenPkgFile : FSEntry :=
  ⟨[".cache", "package.json"], true, some ""⟩

/-- A Java source file (used to exercise the undefined-method branch). -/
def javaFile : FSEntry :=
  ⟨["Main.java"], true, some "public class Main"⟩

/-- An analyzer with no loaded grammars. -/
def noParsers : Parsers := ⟨none, none, none, none⟩

/-- A `requirements.txt` declaring the same dependency twice. -/
def dupReqFile : FSEntry :=
  ⟨["requirements.txt"], true, some "requests\nrequests\n"⟩

/-- Sixty distinct dependency names (no version pins). -/
def c7names : List String :=
  (List.range 60).map (fun i => "p" ++ String.mk (List.replicate i 'x'))

/-- A `requirements.txt` declaring the sixty dependencies of `c7names`. -/
def c7reqFile : FSEntry :=
  ⟨["requirements.txt"], true, some (strJoinSep "\n" c7names)⟩

/-! ## Helper lemmas -/

/-- Filtering an empty candidate list yields the empty list for every project
type. -/
theorem filterEntryPoints_nil (pt : ProjectType) :
    filterEntryPointsByProjectType [] pt = [] := by
  cases pt <;> rfl

/-- Entries skipped by a fold step can be filtered away without changing the
fold. -/
theorem foldl_filter_of_skipped {α β : Type} (f : β → α → β) (p : α → Bool)
    (h : ∀ b a, p a = false → f b a = b) (l : List α) (b : β) :
    l.foldl f b = (l.filter p).foldl f b := by
  induction l generalizing b with
  | nil => rfl
  | cons a t ih =>
      by_cases hp : p a = true
      · simp [List.filter_cons, hp, List.foldl_cons, ih]
      · have hp2 : p a = false := by
          cases hpa : p a
          · rfl
          · exact absurd hpa hp
        simp [List.filter_cons, hp2, List.foldl_cons, h _ _ hp2, ih]

/-- The candidate-accumulation fold factors through list append. -/
theorem collectEntryPoints_append (parsers : Parsers) (xs ys : List FSEntry) :
    collectEntryPoints parsers (xs ++ ys)
      = collectEntryPoints parsers xs ++ collectEntryPoints parsers ys := by
  have go : ∀ (l : List FSEntry) (acc : List EntryPoint),
      l.foldl (fun acc2 e => acc2 ++ fileContribution parsers e) acc
        = acc ++ l.foldl (fun acc2 e => acc2 ++ fileContribution parsers e) [] := by
    intro l
    induction l with
    | nil => intro acc; simp
    | cons e t ih =>
        intro acc
        simp only [List.foldl_cons]
        rw [ih (acc ++ fileContribution parsers e), ih (([] : List EntryPoint) ++ fileContribution parsers e)]
        simp
  unfold collectEntryPoints
  rw [List.foldl_append, go (ys) _, go ys []]

/-! ## Claim theorems -/

/-- C1 (counterexample): the Python extractor tags the method `add` — a
`function_definition` node enclosed in the class body of `Calculator`, with no
route decorator and a name not starting with `_` — as `public_function`,
whereas the enclosing-node-dependent cascade of the claim assigns `public_method`. -/
theorem C1_cex :
    emitPythonNode c6src "main.py" (some c6classBlock) c6addNode
      = [{ name := "add", filePath := "main.py", lineNumber := 5,
           type := "public_function", parameters := ["self", "a", "b"] }]
    ∧ hasApiDecorator c6src (some c6classBlock) = false
    ∧ pythonRoleClaim false true "add" = "public_method"
    ∧ ("public_function" : String) ≠ "public_method" := by
  decide

/-- C1 (amended): for every Python `function_definition` node with a
resolvable (non-empty) name, the emitted role tag follows the first-match
cascade: route decorator on the enclosing `decorated_definition` →
`api_endpoint`; else a name not starting with `_` → `public_function`; else
`private_function`.  The tag never depends on the enclosing-node type and the
`method` variants are never produced. -/
theorem C1_thm (src path : String) (parent : Option TSNode) (n : TSNode)
    (nm : String) (ps : List String)
    (hty : n.ty = "function_definition")
    (hinfo : pythonFuncInfo src n.children = (some nm, ps))
    (hne : nm ≠ "") :
    emitPythonNode src path parent n =
      [{ name := nm, filePath := path, lineNumber := n.startRow + 1,
         type := if hasApiDecorator src parent then "api_endpoint"
                 else if strStartsWith nm "_" then "private_function"
                 else "public_function",
         parameters := ps }] := by
  unfold emitPythonNode
  rw [hty, hinfo]
  simp only [beq_self_eq_true, if_true]
  have hbeq : (nm == "") = false := by
    cases hb : nm == ""
    · rfl
    · exact absurd (eq_of_beq hb) hne
  rw [hbeq]
  simp only [Bool.false_eq_true, if_false]
  unfold pythonFuncType isPublicName
  cases hA : hasApiDecorator src parent
  · cases hS : strStartsWith nm "_" <;> simp
  · simp

/-- C1 (witness): the cascade theorem applied to the concrete `add` node of
the scenario tree, whose parent is the class body of `Calculator`. -/
theorem C1_witness :
    TSNode.ty c6addNode = "function_definition"
    ∧ pythonFuncInfo c6src (TSNode.children c6addNode)
        = (some "add", ["self", "a", "b"])
    ∧ emitPythonNode c6src "main.py" (some c6classBlock) c6addNode
        = [{ name := "add", filePath := "main.py",
             lineNumber := TSNode.startRow c6addNode + 1,
             type := if hasApiDecorator c6src (some c6classBlock) then "api_endpoint"
                     else if strStartsWith "add" "_" then "private_function"
                     else "public_function",
             parameters := ["self", "a", "b"] }] :=
  ⟨by decide, by decide,
   C1_thm c6src "main.py" (some c6classBlock) c6addNode "add" ["self", "a", "b"]
     (by decide) (by decide) (by decide)⟩

/-- C2: the entry-point filter retains, for project type `api`, exactly the
candidates tagged `api_endpoint`; for `library`, exactly the four public role
tags; and for the default `unknown` type, exactly those four together with
`api_endpoint`. -/
theorem C2_thm (eps : List EntryPoint) :
    filterEntryPointsByProjectType eps .api
        = eps.filter (fun ep => ep.type == "api_endpoint")
    ∧ filterEntryPointsByProjectType eps .library
        = eps.filter (fun ep =>
            ep.type == "public_class" || ep.type == "public_interface"
            || ep.type == "public_method" || ep.type == "public_function")
    ∧ filterEntryPointsByProjectType eps .unknown
        = eps.filter (fun ep =>
            ep.type == "public_class" || ep.type == "public_interface"
            || ep.type == "public_method" || ep.type == "public_function"
            || ep.type == "api_endpoint") := by
  refine ⟨rfl, ?_, ?_⟩ <;>
    · unfold filterEntryPointsByProjectType
      refine List.filter_congr (fun ep _ => ?_)
      simp only [List.contains_cons, List.contains_nil, Bool.or_false, Bool.or_assoc]

/-- C3: for every candidate list and every project type, the filtered output
is a sublist (an order-preserving subsequence) of the input. -/
theorem C3_thm (eps : List EntryPoint) (pt : ProjectType) :
    (filterEntryPointsByProjectType eps pt).Sublist eps := by
  cases pt <;> exact List.filter_sublist eps

/-- C4 (counterexample): a C# file declaring `interface IFoo` (not a `public
interface`) together with a public class.  Rule (b) of the code fires through
the `interface I` naming convention and classifies the project `library`; the
cascade of the claim, whose rule (b) needs a public interface declaration, falls
through to `unknown`. -/
theorem C4_cex :
    detectProjectType "proj" .csharp [c4libFile] = .library
    ∧ detectCSharpTypeClaim "proj" [c4libFile] = .unknown
    ∧ ProjectType.library ≠ ProjectType.unknown := by
  decide

/-- C4 (amended): the C#-case cascade, with rule (b) firing when a public
class declaration is present together with either a `public interface`
declaration or the `interface I` naming convention: (a) an API-framework
marker in any `.cs` file → `api`; (b) else interfaces and public classes →
`library`; (c) else a `Main` entry method without public classes → `cli`;
(d) else the `.csproj` output-type scan decides, falling through to the
generic rules.  In particular a file with `[ApiController]` and a public
class but no interface classifies `api`. -/
theorem C4_thm :
    (∀ (path : String) (files : List FSEntry),
        (csScan files).apiControllers = true →
        detectProjectType path .csharp files = .api)
    ∧ (∀ (path : String) (files : List FSEntry),
        (csScan files).apiControllers = false →
        (csScan files).interfaces = true →
        (csScan files).publicClasses = true →
        detectProjectType path .csharp files = .library)
    ∧ (∀ (path : String) (files : List FSEntry),
        (csScan files).apiControllers = false →
        ((csScan files).interfaces && (csScan files).publicClasses) = false →
        (csScan files).mainMethod = true →
        (csScan files).publicClasses = false →
        detectProjectType path .csharp files = .cli)
    ∧ (∀ (path : String) (files : List FSEntry),
        (csScan files).apiControllers = false →
        ((csScan files).interfaces && (csScan files).publicClasses) = false →
        ((csScan files).mainMethod && !(csScan files).publicClasses) = false →
        detectProjectType path .csharp files
          = (match csprojScan files with
             | some t => t
             | none => genericDetect path files))
    ∧ detectProjectType "proj" .csharp [c4apiFile] = .api := by
  refine ⟨?_, ?_, ?_, ?_, by decide⟩
  · intro path files h
    simp [detectProjectType, h]
  · intro path files h1 h2 h3
    simp [detectProjectType, h1, h2, h3]
  · intro path files h1 h2 h3 h4
    simp [detectProjectType, h1, h2, h3, h4]
  · intro path files h1 h2 h3
    simp [detectProjectType, h1, h2, h3]

/-- C4 (witness): the library rule applied to the concrete `interface I` +
`public class` file. -/
theorem C4_witness :
    (csScan [c4libFile]).apiControllers = false
    ∧ (csScan [c4libFile]).interfaces = true
    ∧ (csScan [c4libFile]).publicClasses = true
    ∧ detectProjectType "proj" .csharp [c4libFile] = .library :=
  ⟨by decide, by decide, by decide,
   C4_thm.2.1 "proj" [c4libFile] (by decide) (by decide) (by decide)⟩

/-- C5 (counterexample): a `package.json` inside a hidden `.cache` directory
drives `_detect_project_type` to `web_app`, while filtering hidden paths away
yields `unknown` — the type-detection pass does not exclude hidden paths. -/
theorem C5_cex :
    detectProjectType "proj" .unknown [hiddenPkgFile] = .webApp
    ∧ detectProjectType "proj" .unknown
        (([hiddenPkgFile] : List FSEntry).filter (fun e => !(isHidden e))) = .unknown
    ∧ ProjectType.webApp ≠ ProjectType.unknown := by
  decide

/-- C5 (amended): the language tally and the per-file extraction loop skip
every path with a segment starting with `.`, but the project-type detection
rules run over the unfiltered listing: removing hidden entries can change the
detected type. -/
theorem C5_thm :
    (∀ files : List FSEntry,
        languageCounts files
          = languageCounts (files.filter (fun e => !(isHidden e))))
    ∧ (∀ (parsers : Parsers) (e : FSEntry), isHidden e = true →
        fileContribution parsers e = [])
    ∧ ¬ (∀ (path : String) (lang : ProjectLanguage) (files : List FSEntry),
          detectProjectType path lang files
            = detectProjectType path lang (files.filter (fun e => !(isHidden e)))) := by
  refine ⟨?_, ?_, ?_⟩
  · intro files
    unfold languageCounts
    rw [foldl_filter_of_skipped _ (fun e => !(isHidden e))]
    intro b e hskip
    simp only [hskip, Bool.and_false, Bool.false_eq_true, if_false]
  · intro parsers e h
    unfold fileContribution
    simp [h]
  · intro hAll
    exact absurd (hAll "proj" .unknown [hiddenPkgFile]) (by decide)

/-- C5 (witness): the hidden-file contribution clause applied to the concrete
hidden `package.json`. -/
theorem C5_witness :
    isHidden hiddenPkgFile = true
    ∧ fileContribution noParsers hiddenPkgFile = [] :=
  ⟨by decide, C5_thm.2.1 noParsers hiddenPkgFile (by decide)⟩

/-- C6 (counterexample): extraction over the scenario file yields three
candidates, not two — the `add` method inside `Calculator` is also extracted —
and the defaulted parameter of `hello_world` is not collected, because its
identifier sits inside a `default_parameter` node rather than as a direct
child of the `parameters` node. -/
theorem C6_cex :
    (pythonEntryPoints (some c6parse) c6src "main.py").length ≠ 2
    ∧ (pythonEntryPoints (some c6parse) c6src "main.py").map EntryPoint.parameters
        ≠ [["name"], []] := by
  decide

/-- C6 (amended): extraction from the scenario file yields exactly three
candidates in pre-order: `hello_world` tagged `public_function` with an empty
parameter list, `Calculator` tagged `public_class`, and `add` tagged
`public_function` with parameters `["self", "a", "b"]`. -/
theorem C6_thm :
    pythonEntryPoints (some c6parse) c6src "main.py" =
      [{ name := "hello_world", filePath := "main.py", lineNumber := 1,
         type := "public_function" },
       { name := "Calculator", filePath := "main.py", lineNumber := 4,
         type := "public_class" },
       { name := "add", filePath := "main.py", lineNumber := 5,
         type := "public_function", parameters := ["self", "a", "b"] }] := by
  decide

/-- C7 (counterexample): a `requirements.txt` declaring `requests` twice
yields a dependency list with the duplicate kept — no deduplication happens
anywhere in `_extract_dependencies`. -/
theorem C7_cex :
    extractDependencies .python [dupReqFile] none [] = ["requests", "requests"]
    ∧ ¬ (extractDependencies .python [dupReqFile] none []).Nodup := by
  decide

/-- C7 (amended): the extracted dependency list is the declared list capped by
`[:50]` — at most 50 entries, and exactly the first 50 in file order (with
duplicates preserved); in particular a `requirements.txt` with 60 dependency
lines yields exactly the first 50. -/
theorem C7_thm :
    (∀ (language : ProjectLanguage) (files : List FSEntry)
        (jsonDeps : Option (List String × List String)) (pomArtifacts : List String),
        (extractDependencies language files jsonDeps pomArtifacts).length ≤ 50
        ∧ extractDependencies language files jsonDeps pomArtifacts
            = (allDeclaredDeps language files jsonDeps pomArtifacts).take 50)
    ∧ extractDependencies .python [c7reqFile] none [] = c7names.take 50 := by
  refine ⟨fun language files jsonDeps pomArtifacts => ⟨?_, rfl⟩, by decide⟩
  unfold extractDependencies
  simp [List.length_take]

/-- C8 (counterexample): for an empty file set under a project path whose
string contains `bin/`, classification returns project type `cli`, not
`unknown` — the CLI rule also fires on the project path itself. -/
theorem C8_cex :
    detectProjectType "/srv/bin/app" .unknown [] = .cli
    ∧ analyzeProject "/srv/bin/app" [] none []
        ≠ { language := .unknown, projectType := .unknown, dependencies := [],
            fileCount := 0, linesOfCode := 0 } := by
  decide

/-- C8 (amended): for an empty file set, classification and extraction are
total and return all-default results — `Unknown` primary language, zero
counts, no dependencies, and the empty candidate list — and the project type
is `unknown` provided the project-path string does not contain `bin/`. -/
theorem C8_thm (projectPathStr : String) (parsers : Parsers)
    (jsonDeps : Option (List String × List String)) (pomArtifacts : List String)
    (h : strContainsSub projectPathStr "bin/" = false) :
    analyzeProject projectPathStr [] jsonDeps pomArtifacts
      = { language := .unknown, projectType := .unknown, dependencies := [],
          fileCount := 0, linesOfCode := 0 }
    ∧ extractEntryPointsAll parsers projectPathStr [] = [] := by
  constructor
  · unfold analyzeProject
    simp [primaryLanguage, languageCounts, maxCountKey, detectProjectType,
      genericDetect, hasFileName, pyApiScan, csprojScan, extractDependencies,
      allDeclaredDeps, topLevelContent, totalFiles, totalLoc, h]
  · unfold extractEntryPointsAll
    simp [collectEntryPoints, filterEntryPoints_nil]

/-- C8 (witness): the default-safety theorem applied at the concrete path
`proj` and an analyzer with no loaded grammars. -/
theorem C8_witness :
    strContainsSub "proj" "bin/" = false
    ∧ analyzeProject "proj" [] none []
        = { language := .unknown, projectType := .unknown, dependencies := [],
            fileCount := 0, linesOfCode := 0 }
    ∧ extractEntryPointsAll noParsers "proj" [] = [] :=
  ⟨by decide, (C8_thm "proj" noParsers none [] (by decide)).1,
   (C8_thm "proj" noParsers none [] (by decide)).2⟩

/-- C9: per-file extraction is deterministic — the dispatch is a pure function
of the parser table, the language, the source text and the file path, so two
runs on identical inputs return identical candidate lists. -/
theorem C9_thm (parsers : Parsers) (language : ProjectLanguage)
    (s1 s2 f1 f2 : String) (hs : s1 = s2) (hf : f1 = f2) :
    dispatchExtract parsers language s1 f1 = dispatchExtract parsers language s2 f2 := by
  subst hs
  subst hf
  rfl

/-- C9 (witness): determinism applied to the concrete scenario source. -/
theorem C9_witness :
    (c6src = c6src)
    ∧ dispatchExtract ⟨some c6parse, none, none, none⟩ .python c6src "main.py"
        = dispatchExtract ⟨some c6parse, none, none, none⟩ .python c6src "main.py" :=
  ⟨rfl, C9_thm ⟨some c6parse, none, none, none⟩ .python c6src c6src "main.py" "main.py" rfl rfl⟩

/-- C10: the Java dispatch branch calls the undefined
`_extract_java_entry_points` and so raises; the per-file handler catches the
exception, the file contributes zero candidates, and the accumulation loop
proceeds over the remaining files unchanged. -/
theorem C10_thm :
    (∀ (parsers : Parsers) (sourceCode relativePath : String),
        dispatchExtract parsers .java sourceCode relativePath
          = .error "AttributeError: TreeSitterAnalyzer has no attribute _extract_java_entry_points")
    ∧ (∀ (parsers : Parsers) (e : FSEntry), detectLanguage e = .java →
        fileContribution parsers e = [])
    ∧ (∀ (parsers : Parsers) (pre post : List FSEntry) (e : FSEntry),
        detectLanguage e = .java →
        collectEntryPoints parsers (pre ++ e :: post)
          = collectEntryPoints parsers (pre ++ post)) := by
  have hfile : ∀ (parsers : Parsers) (e : FSEntry), detectLanguage e = .java →
      fileContribution parsers e = [] := by
    intro parsers e h
    unfold fileContribution
    rw [h]
    by_cases hb : (e.isFile && !(isHidden e)) = true
    · simp only [hb, if_true]
      cases hc : e.content <;> simp [dispatchExtract]
    · simp only [Bool.not_eq_true] at hb
      simp [hb]
  refine ⟨fun _ _ _ => rfl, hfile, ?_⟩
  intro parsers pre post e h
  have hsplit : pre ++ e :: post = pre ++ [e] ++ post := by simp
  rw [hsplit, collectEntryPoints_append, collectEntryPoints_append,
    collectEntryPoints_append]
  have : collectEntryPoints parsers [e] = [] := by
    unfold collectEntryPoints
    simp [hfile parsers e h]
  rw [this]
  simp

/-- C10 (witness): the zero-contribution clause applied to a concrete Java
file on an analyzer with no loaded grammars. -/
theorem C10_witness :
    detectLanguage javaFile = .java
    ∧ fileContribution noParsers javaFile = [] :=
  ⟨by decide, C10_thm.2.1 noParsers javaFile (by decide)⟩

end Aices
